import Mathlib

/-!
Shallow embedding of the LCA prediction engine
(`src/ml_models/predict.py`, class `EnhancedLCAPredictor`).

Modelling conventions:
* Python floats are modelled as exact rationals (`ℚ`); the decimal literals
  of the source (0.3, 1.2, 0.2, ...) are exact in `ℚ`.
* A request is a Python dict with a known field universe (the fields named by
  the source and by the training script); a missing key is `none`.
* `Predictions` models the result dict.  The only keys the pipeline ever
  writes are `sustainability_score`, `circular_score`, `linear_score`
  (written by `fallback_predict` and by the trained-model loop, whose key set
  comes from `load_models`, which only loads those three target names),
  `confidence` (written by `apply_industry_benchmarks`), and
  `improvements` / `potential_score` (written by
  `calculate_additional_metrics`), so a record with those optional fields is
  a faithful model of the dict.
* A trained regressor (an unpickled model object) is modelled as a function
  from the feature vector to `Option ℚ`; `none` models
  `model.predict` raising an exception (caught per target in `predict`).
* The scaler entry `scalers[main]` is likewise `Option` of a function
  whose `none` result models `transform` raising (caught, raw features used).
* `datetime.now()` is impure; `predict` takes the timestamp as an explicit
  `now : String` argument.
-/

namespace LCA

/-- Python `round(x, 1)` tie behaviour: round half to even (bankers
rounding) of `q` to an integer. -/
def bankersRound (q : ℚ) : ℤ :=
  if q - ⌊q⌋ < 1/2 then ⌊q⌋
  else if 1/2 < q - ⌊q⌋ then ⌊q⌋ + 1
  else if ⌊q⌋ % 2 = 0 then ⌊q⌋ else ⌊q⌋ + 1

/-- Python `round(x, 1)`: round to one decimal place, half to even. -/
def pyRound1 (q : ℚ) : ℚ := (bankersRound (q * 10) : ℚ) / 10

/-- The clamp `max(0, min(100, x))` used throughout `predict.py`. -/
def clamp100 (q : ℚ) : ℚ := max 0 (min 100 q)

/-- Python `str.lower()` (ASCII, which covers every string the engine
lowercases: the metal-type names). -/
def pyLower (s : String) : String := String.mk (s.toList.map Char.toLower)

/-- Single quote character (for rendering Python list reprs). -/
def squote : String := String.singleton (Char.ofNat 39)

/-- Python `repr` of a list of strings, as interpolated by an f-string:
for example `[` `met` `]` with quotes around each element. -/
def pyListRepr (xs : List String) : String :=
  "[" ++ String.intercalate ", " (xs.map (fun s => squote ++ s ++ squote)) ++ "]"

/-- A request dict.  Field universe: the keys read anywhere in
`predict.py` plus the numeric columns of the training script.  `none`
models an absent key. -/
structure Request where
  metal_type : Option String := none
  production_route : Option String := none
  region : Option String := none
  total_energy : Option ℚ := none
  total_water : Option ℚ := none
  total_waste : Option ℚ := none
  recycling_rate : Option ℚ := none
  process_efficiency : Option ℚ := none
  transport_distance : Option ℚ := none
  product_lifetime : Option ℚ := none
deriving DecidableEq

/-- The `improvements` sub-dict written by `calculate_additional_metrics`. -/
structure Improvements where
  energy_efficiency : ℚ
  recycling_impact : ℚ
  transport_optimization : ℚ
deriving DecidableEq

/-- The predictions dict (see the field-universe note in the file header). -/
@[ext] structure Predictions where
  sustainability_score : Option ℚ := none
  circular_score : Option ℚ := none
  linear_score : Option ℚ := none
  confidence : Option ℚ := none
  improvements : Option Improvements := none
  potential_score : Option ℚ := none
deriving DecidableEq

/-- One min/max/avg band of `self.industry_benchmarks`. -/
structure Band where
  min : ℚ
  max : ℚ
  avg : ℚ
deriving DecidableEq

/-- The per-metal benchmark entry of `self.industry_benchmarks`. -/
structure Benchmarks where
  energy_intensity : Band
  water_intensity : Band
  co2_intensity : Band
deriving DecidableEq

/-- Embeds `self.industry_benchmarks` from `__init__` (identical for every
instance, hence a top-level constant): entries for aluminum, copper and
steel only — there is no titanium entry. -/
def industry_benchmarks (metal : String) : Option Benchmarks :=
  if metal = "aluminum" then
    some { energy_intensity := ⟨12, 25, 18.5⟩
           water_intensity := ⟨8, 20, 12⟩
           co2_intensity := ⟨10, 20, 15⟩ }
  else if metal = "copper" then
    some { energy_intensity := ⟨15, 30, 22⟩
           water_intensity := ⟨10, 25, 16⟩
           co2_intensity := ⟨12, 25, 18⟩ }
  else if metal = "steel" then
    some { energy_intensity := ⟨18, 35, 26⟩
           water_intensity := ⟨12, 30, 20⟩
           co2_intensity := ⟨15, 30, 22⟩ }
  else none

/-- An unpickled regressor: `model.predict(X)[0]`, with `none` modelling a
raised exception. -/
abbrev Regressor := List ℚ → Option ℚ

/-- The `self.models` dict.  `fallback` models membership of the key
`fallback` (set by the fallback initializer); the other fields model
the three target keys, the only ones `load_models` ever inserts. -/
structure Models where
  fallback : Bool := false
  sustainability_score : Option Regressor := none
  circular_score : Option Regressor := none
  linear_score : Option Regressor := none

/-- The state of an `EnhancedLCAPredictor` after construction:
`self.models`, `self.scalers[main]` (presence of the key `main` and the
behaviour of its `transform`), and the metadata entries the engine reads
(`feature_names`, `version`, `trained_at`; a missing `metadata` key is
`none`). -/
structure PredictorState where
  models : Models := {}
  scalers_main : Option (List ℚ → Option (List ℚ)) := none
  feature_names : Option (List String) := none
  version : Option String := none
  trained_at : Option String := none

/-- Embeds `required_fields` in `validate_input_data`. -/
def required_fields : List String := ["metal_type", "production_route", "region"]

/-- Embeds `valid_metals` in `validate_input_data`. -/
def valid_metals : List String := ["Aluminum", "Copper", "Steel", "Titanium"]

/-- Python `field in data`, for the field names the validator queries. -/
def field_in_request (data : Request) (f : String) : Bool :=
  if f = "metal_type" then data.metal_type.isSome
  else if f = "production_route" then data.production_route.isSome
  else if f = "region" then data.region.isSome
  else if f = "total_energy" then data.total_energy.isSome
  else if f = "recycling_rate" then data.recycling_rate.isSome
  else false

/-- Embeds `missing_fields` in `validate_input_data`. -/
def missing_fields (data : Request) : List String :=
  required_fields.filter (fun f => !(field_in_request data f))

/-- Embeds `validate_input_data`: required fields, metal whitelist, numeric
ranges.  (The `float(...)` coercions cannot raise in this model because
numeric fields are already rationals.) -/
def validate_input_data (data : Request) : Bool × String :=
  if !(missing_fields data).isEmpty then
    (false, "Missing required fields: " ++ pyListRepr (missing_fields data))
  else if !(valid_metals.contains (data.metal_type.getD "")) then
    (false, "Invalid metal_type. Must be one of: " ++ pyListRepr valid_metals)
  else
    match data.total_energy with
    | some energy =>
      if energy < 0 ∨ energy > 100 then
        (false, "total_energy must be between 0 and 100 GJ")
      else
        match data.recycling_rate with
        | some recycling =>
          if recycling < 0 ∨ recycling > 100 then
            (false, "recycling_rate must be between 0 and 100%")
          else (true, "Valid")
        | none => (true, "Valid")
    | none =>
      match data.recycling_rate with
      | some recycling =>
        if recycling < 0 ∨ recycling > 100 then
          (false, "recycling_rate must be between 0 and 100%")
        else (true, "Valid")
      | none => (true, "Valid")

/-- The `metal_type` entry of `categorical_mappings` (`mapping.get(x, 0)`). -/
def encode_metal_type (x : String) : ℚ :=
  if x = "Aluminum" then 0 else if x = "Copper" then 1
  else if x = "Steel" then 2 else if x = "Titanium" then 3 else 0

/-- The `production_route` entry of `categorical_mappings`. -/
def encode_production_route (x : String) : ℚ :=
  if x = "Primary" then 0 else if x = "Secondary" then 1 else 0

/-- The `region` entry of `categorical_mappings`; note that both `Asia`
and `India` map to 2. -/
def encode_region (x : String) : ℚ :=
  if x = "North America" then 0 else if x = "Europe" then 1
  else if x = "Asia" then 2 else if x = "South America" then 3
  else if x = "India" then 2 else 0

/-- Character-list prefix test (helper for the substring test below). -/
def charsPre : List Char → List Char → Bool
  | [], _ => true
  | _ :: _, [] => false
  | a :: as, b :: bs => a = b && charsPre as bs

/-- Character-list substring test (helper for `strContains`). -/
def charsSub (pat : List Char) : List Char → Bool
  | [] => pat.isEmpty
  | a :: t => charsPre pat (a :: t) || charsSub pat t

/-- Python `pat in s` on strings. -/
def strContains (s pat : String) : Bool := charsSub pat.toList s.toList

/-- The intelligent-default rules of `preprocess_input` for a feature name
absent from the request row. -/
def default_feature (feature : String) : ℚ :=
  if strContains feature "encoded" then 0
  else if strContains feature "rate" || strContains feature "efficiency" then 50
  else if strContains feature "distance" then 500
  else if strContains feature "lifetime" then 15
  else 0

/-- The built-in default `feature_names` used when metadata is absent
(also the list `initialize_fallback_models` writes into the metadata). -/
def default_feature_names : List String :=
  ["metal_type_encoded", "production_route_encoded", "region_encoded",
   "total_energy", "total_water", "recycling_rate", "process_efficiency"]

/-- The value of column `feature` of the one-row DataFrame built by
`preprocess_input` (request fields plus the `_encoded` columns added for
the categorical fields that are present).  The raw categorical columns
(`metal_type`, `production_route`, `region`) hold strings, not numbers;
they never occur in `feature_names` (the training script only stores
numeric columns there), so they are not part of this numeric model. -/
def colValue (data : Request) (feature : String) : Option ℚ :=
  if feature = "metal_type_encoded" then data.metal_type.map encode_metal_type
  else if feature = "production_route_encoded" then
    data.production_route.map encode_production_route
  else if feature = "region_encoded" then data.region.map encode_region
  else if feature = "total_energy" then data.total_energy
  else if feature = "total_water" then data.total_water
  else if feature = "total_waste" then data.total_waste
  else if feature = "recycling_rate" then data.recycling_rate
  else if feature = "process_efficiency" then data.process_efficiency
  else if feature = "transport_distance" then data.transport_distance
  else if feature = "product_lifetime" then data.product_lifetime
  else none

/-- Embeds `preprocess_input`: validate, encode categoricals, fill defaults,
order by `feature_names`, and scale when `scalers[main]` exists (a
failing transform falls back to the raw features). -/
def preprocess_input (st : PredictorState) (data : Request) : Option (List ℚ) :=
  if !(validate_input_data data).1 then none
  else
    let required := st.feature_names.getD default_feature_names
    let X := required.map (fun f => (colValue data f).getD (default_feature f))
    match st.scalers_main with
    | some scaler => some ((scaler X).getD X)
    | none => some X

/-- Embeds `calculate_confidence`: base 0.8, +0.1 for a plausible sustainability
score, +0.1 when circular exceeds linear, capped at 1.0.  The
`benchmarks` argument is taken but never used numerically, exactly as in
the source. -/
def calculate_confidence (predictions : Predictions) (benchmarks : Benchmarks) : ℚ :=
  let base_confidence : ℚ := 0.8
  let sustainability := predictions.sustainability_score.getD 50
  let base_confidence :=
    if 30 ≤ sustainability ∧ sustainability ≤ 95 then base_confidence + 0.1
    else base_confidence
  let circular := predictions.circular_score.getD 50
  let linear := predictions.linear_score.getD 50
  let base_confidence :=
    if circular > linear then base_confidence + 0.1 else base_confidence
  min 1 base_confidence

/-- Embeds `apply_industry_benchmarks`: when the lowercased metal has a benchmark
entry, clamp each present primary score to [0,100] and then attach the
confidence computed from the clamped scores; otherwise return the
predictions unchanged. -/
def apply_industry_benchmarks (predictions : Predictions) (metal_type : String) :
    Predictions :=
  match industry_benchmarks (pyLower metal_type) with
  | some benchmarks =>
    let clamped : Predictions :=
      { predictions with
        sustainability_score := predictions.sustainability_score.map clamp100
        circular_score := predictions.circular_score.map clamp100
        linear_score := predictions.linear_score.map clamp100 }
    { clamped with confidence := some (calculate_confidence clamped benchmarks) }
  | none => predictions

/-- The per-metal base triples of `fallback_predict`. -/
structure BaseScores where
  sustainability : ℚ
  circular : ℚ
  linear : ℚ
deriving DecidableEq

/-- Embeds `base_scores.get(metal_type, base_scores[aluminum])` in
`fallback_predict`. -/
def base_scores (metal : String) : BaseScores :=
  if metal = "aluminum" then ⟨70, 80, 55⟩
  else if metal = "copper" then ⟨65, 75, 50⟩
  else if metal = "steel" then ⟨60, 70, 45⟩
  else if metal = "titanium" then ⟨75, 85, 60⟩
  else ⟨70, 80, 55⟩

/-- Embeds `fallback_predict`: the deterministic rule engine.  It is a method on
`self` but reads no instance state; the `st` argument records that.  (Its
`try`/`except` cannot fire in this model: nothing in the body raises once
the numeric fields are rationals.) -/
def fallback_predict (st : PredictorState) (data : Request) : Predictions :=
  let metal_type := pyLower (data.metal_type.getD "Aluminum")
  let scores := base_scores metal_type
  let scores :=
    if data.production_route = some "Secondary" then
      { scores with
        sustainability := scores.sustainability + 10
        circular := scores.circular + 15
        linear := scores.linear + 5 }
    else scores
  let recycling_rate := data.recycling_rate.getD 0
  let recycling_bonus := recycling_rate * 0.3
  let scores :=
    { scores with
      sustainability := scores.sustainability + recycling_bonus
      circular := scores.circular + recycling_bonus * 1.2 }
  let efficiency := data.process_efficiency.getD 75
  let efficiency_factor := (efficiency - 50) * 0.2
  let scores :=
    { scores with
      sustainability := scores.sustainability + efficiency_factor
      circular := scores.circular + efficiency_factor
      linear := scores.linear + efficiency_factor * 0.5 }
  let scores : BaseScores :=
    { sustainability := clamp100 scores.sustainability
      circular := clamp100 scores.circular
      linear := clamp100 scores.linear }
  { sustainability_score := some (pyRound1 scores.sustainability)
    circular_score := some (pyRound1 scores.circular)
    linear_score := some (pyRound1 scores.linear) }

/-- Embeds `fallback_single_prediction`: the fixed per-target rescue constants
(the `data` argument is taken but unused, as in the source). -/
def fallback_single_prediction (target : String) (data : Request) : ℚ :=
  if target = "sustainability_score" then 65
  else if target = "circular_score" then 75
  else if target = "linear_score" then 55
  else 60

/-- One iteration of the trained-model loop of `predict`: clamp the
regressor output, or rescue with `fallback_single_prediction` when the
regressor raises. -/
def run_model (reg : Regressor) (target : String) (X : List ℚ) (data : Request) : ℚ :=
  match reg X with
  | some pred => max 0 (min 100 pred)
  | none => fallback_single_prediction target data

/-- The whole trained-model loop of `predict` (`for target, model in
self.models.items()`), over the three target keys `load_models` can
populate. -/
def trained_predictions (models : Models) (X : List ℚ) (data : Request) : Predictions :=
  let p : Predictions := {}
  let p :=
    match models.sustainability_score with
    | some m =>
      { p with sustainability_score := some (run_model m "sustainability_score" X data) }
    | none => p
  let p :=
    match models.circular_score with
    | some m =>
      { p with circular_score := some (run_model m "circular_score" X data) }
    | none => p
  match models.linear_score with
  | some m => { p with linear_score := some (run_model m "linear_score" X data) }
  | none => p

/-- Embeds `calculate_additional_metrics`: derive `improvements` and
`potential_score` when a sustainability score is present. -/
def calculate_additional_metrics (predictions : Predictions) (data : Request) :
    Predictions :=
  match predictions.sustainability_score with
  | some base_score =>
    let improvements : Improvements :=
      { energy_efficiency :=
          min 25 (max 0 ((data.process_efficiency.getD 80) - 60) * 0.5)
        recycling_impact := min 30 ((data.recycling_rate.getD 0) * 0.4)
        transport_optimization :=
          min 15 (max 0 (1000 - (data.transport_distance.getD 500)) / 100) }
    { predictions with
      improvements := some improvements
      potential_score := some (min 100 (base_score +
        (improvements.energy_efficiency + improvements.recycling_impact +
          improvements.transport_optimization) * 0.5)) }
  | none => predictions

/-- The `model_info` part of a successful `predict` response. -/
structure ModelInfo where
  version : String
  trained_at : String
  prediction_time : String
  confidence : ℚ
deriving DecidableEq

/-- The JSON result of `predict`: a predictions/model_info payload or an
error payload. -/
inductive PredictResult where
  | ok (predictions : Predictions) (model_info : ModelInfo) : PredictResult
  | error (msg : String) : PredictResult
deriving DecidableEq

/-- Embeds `predict`: preprocess, dispatch to the fallback scorer or the trained
models, reconcile against benchmarks, augment, and wrap with model info.
`now` is the `datetime.now().isoformat()` timestamp. -/
def predict (st : PredictorState) (now : String) (data : Request) : PredictResult :=
  match preprocess_input st data with
  | none => .error "Preprocessing failed"
  | some X =>
    let predictions :=
      if st.models.fallback then fallback_predict st data
      else trained_predictions st.models X data
    let metal_type := data.metal_type.getD "Aluminum"
    let predictions := apply_industry_benchmarks predictions metal_type
    let predictions := calculate_additional_metrics predictions data
    .ok predictions
      { version := st.version.getD "1.0-enhanced"
        trained_at := st.trained_at.getD "Enhanced mode"
        prediction_time := now
        confidence := predictions.confidence.getD 0.8 }

/-- Constructor outcome when the artifact directory is entirely absent:
every `os.path.exists` check in `load_models` is false, nothing raises, so
`initialize_fallback_models` is never called — `self.models` stays the
empty dict and the metadata stays empty. -/
def no_artifacts_state : PredictorState := {}

/-- Constructor outcome when `load_models` raises (for example a corrupt
`metadata.json`): `initialize_fallback_models` marks the models dict
fallback-only and writes the fallback metadata. -/
def fallback_mode_state : PredictorState :=
  { models := { fallback := true }
    feature_names := some default_feature_names
    version := some "1.0-fallback"
    trained_at := some "Fallback mode" }

/-- The worked example request of the spec (§8). -/
def exampleRequest : Request :=
  { metal_type := some "Aluminum"
    production_route := some "Secondary"
    region := some "Europe"
    recycling_rate := some 50
    process_efficiency := some 80 }

/-- A valid Titanium request (titanium has no benchmark entry). -/
def titaniumRequest : Request :=
  { metal_type := some "Titanium"
    production_route := some "Primary"
    region := some "Asia" }

/-- A trained-models state in which all three regressors raise on every
input. -/
def trainedFailState : PredictorState :=
  { models :=
      { fallback := false
        sustainability_score := some (fun _ => none)
        circular_score := some (fun _ => none)
        linear_score := some (fun _ => none) } }

/-- Helper used in statements: a predictions dict holding the three
primary scores plus arbitrary remaining fields. -/
def mkPredictions (s c l : ℚ) (conf : Option ℚ) (imp : Option Improvements)
    (pot : Option ℚ) : Predictions :=
  { sustainability_score := some s
    circular_score := some c
    linear_score := some l
    confidence := conf
    improvements := imp
    potential_score := pot }

/-! Helper lemmas about the rounding and clamping primitives. -/

theorem bankersRound_cases (q : ℚ) :
    bankersRound q = ⌊q⌋ ∨ bankersRound q = ⌊q⌋ + 1 := by
  unfold bankersRound
  split_ifs <;> simp

theorem le_bankersRound (q : ℚ) : ⌊q⌋ ≤ bankersRound q := by
  rcases bankersRound_cases q with h | h <;> omega

theorem bankersRound_le_floor_add_one (q : ℚ) : bankersRound q ≤ ⌊q⌋ + 1 := by
  rcases bankersRound_cases q with h | h <;> omega

theorem bankersRound_le_ceil (q : ℚ) : bankersRound q ≤ ⌈q⌉ := by
  have hfc : ⌊q⌋ ≤ ⌈q⌉ := Int.floor_le_ceil q
  have key : 1/2 ≤ q - ⌊q⌋ → ⌊q⌋ + 1 ≤ ⌈q⌉ := by
    intro hf
    have h1 : (⌊q⌋ : ℚ) < q := by linarith
    have h2 : (⌊q⌋ : ℚ) < (⌈q⌉ : ℚ) := lt_of_lt_of_le h1 (Int.le_ceil q)
    have h3 : ⌊q⌋ < ⌈q⌉ := by exact_mod_cast h2
    omega
  unfold bankersRound
  split_ifs with h1 h2 h3
  · exact hfc
  · exact key (le_of_lt h2)
  · exact hfc
  · exact key (le_of_not_lt h1)

theorem bankersRound_mono {a b : ℚ} (hab : a ≤ b) :
    bankersRound a ≤ bankersRound b := by
  have hf : ⌊a⌋ ≤ ⌊b⌋ := Int.floor_le_floor hab
  rcases lt_or_eq_of_le hf with hlt | heq
  · calc bankersRound a ≤ ⌊a⌋ + 1 := bankersRound_le_floor_add_one a
      _ ≤ ⌊b⌋ := by omega
      _ ≤ bankersRound b := le_bankersRound b
  · have hfr : a - (⌊a⌋ : ℚ) ≤ b - (⌊b⌋ : ℚ) := by
      rw [← heq]; linarith
    unfold bankersRound
    rw [← heq]
    rw [← heq] at hfr
    split_ifs <;> first | omega | linarith

theorem pyRound1_mono {a b : ℚ} (h : a ≤ b) : pyRound1 a ≤ pyRound1 b := by
  unfold pyRound1
  have h10 : a * 10 ≤ b * 10 := by linarith
  have hbr : bankersRound (a * 10) ≤ bankersRound (b * 10) := bankersRound_mono h10
  have hc : ((bankersRound (a * 10) : ℤ) : ℚ) ≤ ((bankersRound (b * 10) : ℤ) : ℚ) := by
    exact_mod_cast hbr
  linarith

theorem pyRound1_nonneg {q : ℚ} (h : 0 ≤ q) : 0 ≤ pyRound1 q := by
  unfold pyRound1
  have h0 : (0 : ℤ) ≤ ⌊q * 10⌋ := Int.floor_nonneg.mpr (by linarith)
  have h1 : (0 : ℤ) ≤ bankersRound (q * 10) := le_trans h0 (le_bankersRound _)
  have h2 : (0 : ℚ) ≤ ((bankersRound (q * 10) : ℤ) : ℚ) := by exact_mod_cast h1
  linarith

theorem pyRound1_le_100 {q : ℚ} (h : q ≤ 100) : pyRound1 q ≤ 100 := by
  have h1000 : q * 10 ≤ ((1000 : ℤ) : ℚ) := by push_cast; linarith
  have hc : ⌈q * 10⌉ ≤ 1000 := Int.ceil_le.mpr h1000
  have hb : bankersRound (q * 10) ≤ 1000 := le_trans (bankersRound_le_ceil _) hc
  unfold pyRound1
  have h2 : ((bankersRound (q * 10) : ℤ) : ℚ) ≤ 1000 := by exact_mod_cast hb
  linarith

theorem clamp100_mono {a b : ℚ} (h : a ≤ b) : clamp100 a ≤ clamp100 b :=
  max_le_max le_rfl (min_le_min le_rfl h)

theorem clamp100_nonneg (q : ℚ) : 0 ≤ clamp100 q := le_max_left 0 _

theorem clamp100_le_100 (q : ℚ) : clamp100 q ≤ 100 :=
  max_le (by norm_num) (min_le_left 100 q)

theorem clamp100_eq_self {q : ℚ} (h0 : 0 ≤ q) (h1 : q ≤ 100) : clamp100 q = q := by
  unfold clamp100
  rw [min_eq_right h1, max_eq_right h0]

theorem pyRound1_clamp100_nonneg (q : ℚ) : 0 ≤ pyRound1 (clamp100 q) :=
  pyRound1_nonneg (clamp100_nonneg q)

theorem pyRound1_clamp100_le_100 (q : ℚ) : pyRound1 (clamp100 q) ≤ 100 :=
  pyRound1_le_100 (clamp100_le_100 q)

/-! Claim theorems. -/

/-- C3: on the worked example request (Aluminum, Secondary, Europe,
recycling_rate 50, process_efficiency 80) with no regressors loaded, the
Fallback Scorer yields sustainability 100.0 (70 + 10 + 15 + 6 = 101
clamped to 100), circular 100.0 (80 + 15 + 18 + 6 = 119 clamped to 100)
and linear 63.0 (55 + 5 + 0 + 3). -/
theorem fallback_example_scores :
    fallback_predict fallback_mode_state exampleRequest =
      { sustainability_score := some 100
        circular_score := some 100
        linear_score := some 63 } := by
  with_unfolding_all decide

/-- C5: the confidence computed during reconciliation equals
min(1.0, 0.8 + (0.1 if the sustainability score is within [30,95] else 0)
+ (0.1 if circular exceeds linear else 0)), for every score set and every
benchmark table. -/
theorem calculate_confidence_formula (b : Benchmarks) (s c l : ℚ)
    (conf : Option ℚ) (imp : Option Improvements) (pot : Option ℚ) :
    calculate_confidence (mkPredictions s c l conf imp pot) b =
      min 1 (0.8 + (if 30 ≤ s ∧ s ≤ 95 then (0.1 : ℚ) else 0) +
        (if c > l then (0.1 : ℚ) else 0)) := by
  simp only [calculate_confidence, mkPredictions, Option.getD_some]
  split_ifs <;> norm_num

/-- C9: the Fallback Scorer is pure and deterministic — identical input
values give identical score triples no matter what engine state the two
calls are made in (so no state carried between calls can affect the
result). -/
theorem fallback_predict_deterministic (st1 st2 : PredictorState)
    (d1 d2 : Request) (h : d1 = d2) :
    fallback_predict st1 d1 = fallback_predict st2 d2 := by
  subst h; rfl

/-- Witness for C9 at concrete inputs: identical requests in the
no-artifacts state and the fallback-mode state give identical results. -/
theorem fallback_predict_deterministic_witness :
    exampleRequest = exampleRequest ∧
      fallback_predict no_artifacts_state exampleRequest =
        fallback_predict fallback_mode_state exampleRequest :=
  ⟨rfl, fallback_predict_deterministic no_artifacts_state fallback_mode_state
    exampleRequest exampleRequest rfl⟩

/-- Counterexample to C1: with no artifacts directory at all the
constructor leaves `self.models` as the empty dict (no exception is ever
raised by `load_models`, so `initialize_fallback_models` never runs); the
trained-model branch of `predict` then iterates over nothing, and the
response on the worked example request carries no primary score at all —
only the confidence added by the reconciler — rather than a complete
prediction from the Fallback Scorer. -/
theorem predict_no_artifacts_counterexample :
    predict no_artifacts_state "2024-01-01T00:00:00" exampleRequest =
      .ok { confidence := some (9/10) }
        { version := "1.0-enhanced"
          trained_at := "Enhanced mode"
          prediction_time := "2024-01-01T00:00:00"
          confidence := 9/10 } := by
  with_unfolding_all decide

/-- Counterexample to C2: a valid Titanium request in fallback mode gets
all three primary scores, but `industry_benchmarks` has no titanium
entry, so `apply_industry_benchmarks` never attaches a confidence — the
predictions mapping has `confidence = none`. -/
theorem predict_titanium_no_confidence_counterexample :
    predict fallback_mode_state "2024-01-01T00:00:00" titaniumRequest =
      .ok { sustainability_score := some 80
            circular_score := some 90
            linear_score := some (125/2)
            confidence := none
            improvements := some ⟨10, 0, 5⟩
            potential_score := some (175/2) }
        { version := "1.0-fallback"
          trained_at := "Fallback mode"
          prediction_time := "2024-01-01T00:00:00"
          confidence := 4/5 } := by
  with_unfolding_all decide

/-- Counterexample to C4: on a request missing `metal_type` and
`production_route`, `predict` returns the error payload
`Preprocessing failed`, not the missing-fields message — that message is
only the reason string of the validator, which is logged. -/
theorem predict_missing_fields_counterexample :
    predict no_artifacts_state "2024-01-01T00:00:00" { region := some "Asia" } =
        .error "Preprocessing failed" ∧
      validate_input_data { region := some "Asia" } =
        (false, "Missing required fields: " ++
          pyListRepr ["metal_type", "production_route"]) ∧
      "Preprocessing failed" ≠
        "Missing required fields: " ++ pyListRepr ["metal_type", "production_route"] := by
  refine ⟨by with_unfolding_all decide, by with_unfolding_all decide, by decide⟩

/-- C4 (amended): when any required field is missing, `predict` computes
no score and returns an error payload — but its message is
`Preprocessing failed`; the message `Missing required fields: [...]`
listing the absent fields is only the reason string of the validator,
logged, not returned. -/
theorem predict_missing_required (st : PredictorState) (now : String)
    (data : Request) (hmiss : missing_fields data ≠ []) :
    predict st now data = .error "Preprocessing failed" ∧
      validate_input_data data =
        (false, "Missing required fields: " ++ pyListRepr (missing_fields data)) := by
  have h1 : (missing_fields data).isEmpty = false := by
    cases h : missing_fields data with
    | nil => exact absurd h hmiss
    | cons a t => rfl
  have hval : validate_input_data data =
      (false, "Missing required fields: " ++ pyListRepr (missing_fields data)) := by
    unfold validate_input_data
    rw [h1]
    rfl
  have hpre : preprocess_input st data = none := by
    unfold preprocess_input
    rw [hval]
    simp
  refine ⟨?_, hval⟩
  unfold predict
  rw [hpre]

/-- Witness for C4 at a concrete input: a request having only a region. -/
theorem predict_missing_required_witness :
    missing_fields { region := some "Europe" } ≠ [] ∧
      predict fallback_mode_state "T" { region := some "Europe" } =
        .error "Preprocessing failed" :=
  ⟨by decide,
    (predict_missing_required fallback_mode_state "T" { region := some "Europe" }
      (by decide)).1⟩

/-- C8: reconciliation is idempotent — for every metal and every score
set whose three primary scores already lie in [0,100], the Benchmark
Reconciler leaves the scores unchanged, and applying it twice gives
exactly the same result (confidence included) as applying it once. -/
theorem apply_industry_benchmarks_idempotent (metal : String) (s c l : ℚ)
    (conf : Option ℚ) (imp : Option Improvements) (pot : Option ℚ)
    (hs0 : 0 ≤ s) (hs1 : s ≤ 100) (hc0 : 0 ≤ c) (hc1 : c ≤ 100)
    (hl0 : 0 ≤ l) (hl1 : l ≤ 100) :
    ((apply_industry_benchmarks (mkPredictions s c l conf imp pot)
        metal).sustainability_score = some s ∧
      (apply_industry_benchmarks (mkPredictions s c l conf imp pot)
        metal).circular_score = some c ∧
      (apply_industry_benchmarks (mkPredictions s c l conf imp pot)
        metal).linear_score = some l) ∧
      apply_industry_benchmarks
          (apply_industry_benchmarks (mkPredictions s c l conf imp pot) metal)
          metal =
        apply_industry_benchmarks (mkPredictions s c l conf imp pot) metal := by
  unfold apply_industry_benchmarks
  cases hb : industry_benchmarks (pyLower metal) with
  | none => simp [mkPredictions]
  | some b =>
    simp only [mkPredictions, Option.map_some', clamp100_eq_self hs0 hs1,
      clamp100_eq_self hc0 hc1, clamp100_eq_self hl0 hl1]
    simp [calculate_confidence]

/-- Witness for C8 at a concrete metal and score set. -/
theorem apply_industry_benchmarks_idempotent_witness :
    ((0:ℚ) ≤ 50 ∧ (50:ℚ) ≤ 100 ∧ (0:ℚ) ≤ 60 ∧ (60:ℚ) ≤ 100 ∧
        (0:ℚ) ≤ 40 ∧ (40:ℚ) ≤ 100) ∧
      ((apply_industry_benchmarks (mkPredictions 50 60 40 none none none)
          "Aluminum").sustainability_score = some 50 ∧
        (apply_industry_benchmarks (mkPredictions 50 60 40 none none none)
          "Aluminum").circular_score = some 60 ∧
        (apply_industry_benchmarks (mkPredictions 50 60 40 none none none)
          "Aluminum").linear_score = some 40) ∧
      apply_industry_benchmarks
          (apply_industry_benchmarks (mkPredictions 50 60 40 none none none)
            "Aluminum") "Aluminum" =
        apply_industry_benchmarks (mkPredictions 50 60 40 none none none)
          "Aluminum" := by
  have h := apply_industry_benchmarks_idempotent "Aluminum" 50 60 40
    none none none (by norm_num) (by norm_num) (by norm_num) (by norm_num)
    (by norm_num) (by norm_num)
  exact ⟨by norm_num, h.1, h.2⟩

/-- Structure of a fallback result: three present scores, each within
[0,100]. -/
theorem fallback_predict_eq (st : PredictorState) (data : Request) :
    ∃ a b c, fallback_predict st data =
        { sustainability_score := some a
          circular_score := some b
          linear_score := some c } ∧
      0 ≤ a ∧ a ≤ 100 ∧ 0 ≤ b ∧ b ≤ 100 ∧ 0 ≤ c ∧ c ≤ 100 := by
  unfold fallback_predict
  exact ⟨_, _, _, rfl,
    pyRound1_clamp100_nonneg _, pyRound1_clamp100_le_100 _,
    pyRound1_clamp100_nonneg _, pyRound1_clamp100_le_100 _,
    pyRound1_clamp100_nonneg _, pyRound1_clamp100_le_100 _⟩

/-- The Metrics Augmenter never touches the primary scores or the
confidence. -/
theorem calculate_additional_metrics_preserves (p : Predictions) (d : Request) :
    (calculate_additional_metrics p d).sustainability_score = p.sustainability_score ∧
      (calculate_additional_metrics p d).circular_score = p.circular_score ∧
      (calculate_additional_metrics p d).linear_score = p.linear_score ∧
      (calculate_additional_metrics p d).confidence = p.confidence := by
  unfold calculate_additional_metrics
  cases hp : p.sustainability_score <;> simp [hp]

/-- Clamping an optional score that is already within bounds (or absent)
is the identity. -/
theorem map_clamp100_eq_self (o : Option ℚ)
    (h : ∀ v, o = some v → 0 ≤ v ∧ v ≤ 100) : o.map clamp100 = o := by
  cases o with
  | none => rfl
  | some v =>
    obtain ⟨h0, h1⟩ := h v rfl
    simp [clamp100_eq_self h0 h1]

/-- The Benchmark Reconciler leaves primary scores unchanged whenever
clamping them is the identity. -/
theorem apply_industry_benchmarks_scores (q : Predictions) (m : String)
    (hs : q.sustainability_score.map clamp100 = q.sustainability_score)
    (hc : q.circular_score.map clamp100 = q.circular_score)
    (hl : q.linear_score.map clamp100 = q.linear_score) :
    (apply_industry_benchmarks q m).sustainability_score = q.sustainability_score ∧
      (apply_industry_benchmarks q m).circular_score = q.circular_score ∧
      (apply_industry_benchmarks q m).linear_score = q.linear_score := by
  unfold apply_industry_benchmarks
  cases industry_benchmarks (pyLower m) <;> simp [hs, hc, hl]

/-- The heuristic confidence always lies in [0,1]. -/
theorem calculate_confidence_bounds (p : Predictions) (b : Benchmarks) :
    0 ≤ calculate_confidence p b ∧ calculate_confidence p b ≤ 1 := by
  simp only [calculate_confidence]
  refine ⟨?_, min_le_left _ _⟩
  split_ifs <;> exact le_min (by norm_num) (by norm_num)

/-- The clamped regressor output (or its rescue constant) lies in
[0,100]. -/
theorem run_model_bounds (reg : Regressor) (target : String) (X : List ℚ)
    (data : Request) :
    0 ≤ run_model reg target X data ∧ run_model reg target X data ≤ 100 := by
  unfold run_model
  cases reg X with
  | some v =>
    exact ⟨le_max_left 0 _, max_le (by norm_num) (min_le_left 100 v)⟩
  | none =>
    unfold fallback_single_prediction
    split_ifs <;> norm_num

/-- C7: via the Fallback Scorer, increasing `recycling_rate` with all
other request fields held fixed (both rates valid, within [0,100]) never
decreases the sustainability score or the circular score. -/
theorem fallback_monotone_recycling (st : PredictorState) (req : Request)
    (r1 r2 : ℚ) (h0 : 0 ≤ r1) (h12 : r1 ≤ r2) (h100 : r2 ≤ 100)
    (hv1 : (validate_input_data { req with recycling_rate := some r1 }).1 = true)
    (hv2 : (validate_input_data { req with recycling_rate := some r2 }).1 = true) :
    (fallback_predict st { req with recycling_rate := some r1
      }).sustainability_score.getD 0 ≤
        (fallback_predict st { req with recycling_rate := some r2
          }).sustainability_score.getD 0 ∧
      (fallback_predict st { req with recycling_rate := some r1
        }).circular_score.getD 0 ≤
        (fallback_predict st { req with recycling_rate := some r2
          }).circular_score.getD 0 := by
  have hb : r1 * 0.3 ≤ r2 * 0.3 :=
    mul_le_mul_of_nonneg_right h12 (by norm_num)
  have hb2 : r1 * 0.3 * 1.2 ≤ r2 * 0.3 * 1.2 :=
    mul_le_mul_of_nonneg_right hb (by norm_num)
  unfold fallback_predict
  by_cases hroute : req.production_route = some "Secondary" <;>
    simp only [hroute, if_true, if_false, Option.getD_some, reduceIte] <;>
    exact ⟨pyRound1_mono (clamp100_mono (by linarith)),
      pyRound1_mono (clamp100_mono (by linarith))⟩

/-- Witness for C7 at concrete inputs: the worked example request with
recycling rates 20 and 50. -/
theorem fallback_monotone_recycling_witness :
    ((0:ℚ) ≤ 20 ∧ (20:ℚ) ≤ 50 ∧ (50:ℚ) ≤ 100 ∧
      (validate_input_data { exampleRequest with recycling_rate := some 20 }).1
        = true ∧
      (validate_input_data { exampleRequest with recycling_rate := some 50 }).1
        = true) ∧
      (fallback_predict fallback_mode_state { exampleRequest with
        recycling_rate := some 20 }).sustainability_score.getD 0 ≤
        (fallback_predict fallback_mode_state { exampleRequest with
          recycling_rate := some 50 }).sustainability_score.getD 0 ∧
      (fallback_predict fallback_mode_state { exampleRequest with
        recycling_rate := some 20 }).circular_score.getD 0 ≤
        (fallback_predict fallback_mode_state { exampleRequest with
          recycling_rate := some 50 }).circular_score.getD 0 :=
  ⟨⟨by norm_num, by norm_num, by norm_num,
      by with_unfolding_all decide, by with_unfolding_all decide⟩,
    fallback_monotone_recycling fallback_mode_state exampleRequest 20 50
      (by norm_num) (by norm_num) (by norm_num)
      (by with_unfolding_all decide) (by with_unfolding_all decide)⟩

/-- C1 (amended): for every request that passes preprocessing, (i) when
the models dict is marked fallback-only, `predict` delegates the whole
target set to the Fallback Scorer in one call — the returned predictions
carry exactly the three scores of the Fallback Scorer; but (ii) when the
models dict is empty — which is what an entirely absent artifacts
directory produces, since `load_models` then raises nothing and
`initialize_fallback_models` never runs — `predict` does NOT delegate to
the Fallback Scorer: it still succeeds, yet returns a predictions
mapping containing none of the three primary scores. -/
theorem predict_fallback_delegation (st : PredictorState) (now : String)
    (data : Request) (X : List ℚ)
    (hX : preprocess_input st data = some X) :
    (st.models.fallback = true →
      ∃ p mi, predict st now data = .ok p mi ∧
        p.sustainability_score = (fallback_predict st data).sustainability_score ∧
        p.circular_score = (fallback_predict st data).circular_score ∧
        p.linear_score = (fallback_predict st data).linear_score) ∧
      (st.models = {} →
        ∃ p mi, predict st now data = .ok p mi ∧
          p.sustainability_score = none ∧ p.circular_score = none ∧
          p.linear_score = none) := by
  constructor
  · intro hfb
    obtain ⟨a, b, c, hfp, ha0, ha1, hb0, hb1, hc0, hc1⟩ := fallback_predict_eq st data
    have hclamp := apply_industry_benchmarks_scores (fallback_predict st data)
      (data.metal_type.getD "Aluminum")
      (by rw [hfp]; exact map_clamp100_eq_self _ (by
        intro v hv
        rw [Option.some_inj] at hv
        exact hv ▸ ⟨ha0, ha1⟩))
      (by rw [hfp]; exact map_clamp100_eq_self _ (by
        intro v hv
        rw [Option.some_inj] at hv
        exact hv ▸ ⟨hb0, hb1⟩))
      (by rw [hfp]; exact map_clamp100_eq_self _ (by
        intro v hv
        rw [Option.some_inj] at hv
        exact hv ▸ ⟨hc0, hc1⟩))
    have hmetrics := calculate_additional_metrics_preserves
      (apply_industry_benchmarks (fallback_predict st data)
        (data.metal_type.getD "Aluminum")) data
    unfold predict
    rw [hX]
    simp only [hfb, if_true]
    exact ⟨_, _, rfl, hmetrics.1.trans hclamp.1, hmetrics.2.1.trans hclamp.2.1,
      hmetrics.2.2.1.trans hclamp.2.2⟩
  · intro hempty
    have htrained : trained_predictions st.models X data = {} := by
      rw [hempty]; rfl
    have hclamp := apply_industry_benchmarks_scores
      (trained_predictions st.models X data) (data.metal_type.getD "Aluminum")
      (by rw [htrained]; rfl) (by rw [htrained]; rfl) (by rw [htrained]; rfl)
    have hmetrics := calculate_additional_metrics_preserves
      (apply_industry_benchmarks (trained_predictions st.models X data)
        (data.metal_type.getD "Aluminum")) data
    have hfb : st.models.fallback = false := by rw [hempty]
    unfold predict
    rw [hX]
    simp only [hfb, Bool.false_eq_true, if_false]
    refine ⟨_, _, rfl, ?_, ?_, ?_⟩
    · rw [hmetrics.1, hclamp.1, htrained]
    · rw [hmetrics.2.1, hclamp.2.1, htrained]
    · rw [hmetrics.2.2.1, hclamp.2.2, htrained]

/-- Witness for C1 at concrete inputs (the fallback-marked state and the
worked example request). -/
theorem predict_fallback_delegation_witness :
    ∃ p mi, predict fallback_mode_state "T" exampleRequest = .ok p mi ∧
      p.sustainability_score =
        (fallback_predict fallback_mode_state exampleRequest).sustainability_score ∧
      p.circular_score =
        (fallback_predict fallback_mode_state exampleRequest).circular_score ∧
      p.linear_score =
        (fallback_predict fallback_mode_state exampleRequest).linear_score :=
  (predict_fallback_delegation fallback_mode_state "T" exampleRequest
    [0, 1, 1, 0, 0, 50, 80] (by with_unfolding_all decide)).1 rfl

/-- C2 (amended): for every request that passes preprocessing, with the
models dict marked fallback-only, the returned predictions mapping
contains all three primary scores, each within [0,100]; it contains a
confidence value (within [0,1]) exactly when the metal type has an
industry-benchmark entry — Aluminum, Copper and Steel have one, Titanium
does not. -/
theorem predict_fallback_complete (st : PredictorState) (now : String)
    (data : Request) (X : List ℚ)
    (hX : preprocess_input st data = some X)
    (hfb : st.models.fallback = true) :
    ∃ p mi, predict st now data = .ok p mi ∧
      (∃ v, p.sustainability_score = some v ∧ 0 ≤ v ∧ v ≤ 100) ∧
      (∃ v, p.circular_score = some v ∧ 0 ≤ v ∧ v ≤ 100) ∧
      (∃ v, p.linear_score = some v ∧ 0 ≤ v ∧ v ≤ 100) ∧
      ((∃ v, p.confidence = some v ∧ 0 ≤ v ∧ v ≤ 1) ↔
        (industry_benchmarks
          (pyLower (data.metal_type.getD "Aluminum"))).isSome = true) := by
  obtain ⟨a, b, c, hfp, ha0, ha1, hb0, hb1, hc0, hc1⟩ := fallback_predict_eq st data
  have hclamp := apply_industry_benchmarks_scores (fallback_predict st data)
    (data.metal_type.getD "Aluminum")
    (by rw [hfp]; exact map_clamp100_eq_self _ (by
      intro v hv
      rw [Option.some_inj] at hv
      exact hv ▸ ⟨ha0, ha1⟩))
    (by rw [hfp]; exact map_clamp100_eq_self _ (by
      intro v hv
      rw [Option.some_inj] at hv
      exact hv ▸ ⟨hb0, hb1⟩))
    (by rw [hfp]; exact map_clamp100_eq_self _ (by
      intro v hv
      rw [Option.some_inj] at hv
      exact hv ▸ ⟨hc0, hc1⟩))
  have hmetrics := calculate_additional_metrics_preserves
    (apply_industry_benchmarks (fallback_predict st data)
      (data.metal_type.getD "Aluminum")) data
  have hconf :
      ((∃ v, (apply_industry_benchmarks (fallback_predict st data)
          (data.metal_type.getD "Aluminum")).confidence = some v ∧
            0 ≤ v ∧ v ≤ 1) ↔
        (industry_benchmarks
          (pyLower (data.metal_type.getD "Aluminum"))).isSome = true) := by
    unfold apply_industry_benchmarks
    cases hbm : industry_benchmarks (pyLower (data.metal_type.getD "Aluminum")) with
    | none =>
      rw [hfp]
      simp
    | some bench =>
      simp only [Option.isSome_some, iff_true]
      exact ⟨_, rfl, calculate_confidence_bounds _ bench⟩
  unfold predict
  rw [hX]
  simp only [hfb, if_true]
  refine ⟨_, _, rfl, ⟨a, ?_, ha0, ha1⟩, ⟨b, ?_, hb0, hb1⟩, ⟨c, ?_, hc0, hc1⟩, ?_⟩
  · rw [hmetrics.1, hclamp.1, hfp]
  · rw [hmetrics.2.1, hclamp.2.1, hfp]
  · rw [hmetrics.2.2.1, hclamp.2.2, hfp]
  · rw [hmetrics.2.2.2]
    exact hconf

/-- Witness for C2 at concrete inputs (fallback-marked state, worked
example request; Aluminum has a benchmark entry, so the right-hand side
of the final iff is true here). -/
theorem predict_fallback_complete_witness :
    ∃ p mi, predict fallback_mode_state "T" exampleRequest = .ok p mi ∧
      (∃ v, p.sustainability_score = some v ∧ 0 ≤ v ∧ v ≤ 100) ∧
      (∃ v, p.circular_score = some v ∧ 0 ≤ v ∧ v ≤ 100) ∧
      (∃ v, p.linear_score = some v ∧ 0 ≤ v ∧ v ≤ 100) ∧
      ((∃ v, p.confidence = some v ∧ 0 ≤ v ∧ v ≤ 1) ↔
        (industry_benchmarks
          (pyLower (exampleRequest.metal_type.getD "Aluminum"))).isSome = true) :=
  predict_fallback_complete fallback_mode_state "T" exampleRequest
    [0, 1, 1, 0, 0, 50, 80] (by with_unfolding_all decide) rfl

/-- C6: when trained regressors are in use (models not fallback-marked,
all three target regressors loaded), if a regressor raises on the
processed feature vector, `predict` still returns a successful payload
and the score of the failed target is its fixed fallback constant
(sustainability 65.0, circular 75.0, linear 55.0). -/
theorem predict_regressor_failure (st : PredictorState) (now : String)
    (data : Request) (X : List ℚ) (rs rc rl : Regressor)
    (hX : preprocess_input st data = some X)
    (hfb : st.models.fallback = false)
    (hms : st.models.sustainability_score = some rs)
    (hmc : st.models.circular_score = some rc)
    (hml : st.models.linear_score = some rl) :
    ∃ p mi, predict st now data = .ok p mi ∧
      (rs X = none → p.sustainability_score = some 65) ∧
      (rc X = none → p.circular_score = some 75) ∧
      (rl X = none → p.linear_score = some 55) := by
  have htrained : trained_predictions st.models X data =
      { sustainability_score := some (run_model rs "sustainability_score" X data)
        circular_score := some (run_model rc "circular_score" X data)
        linear_score := some (run_model rl "linear_score" X data) } := by
    unfold trained_predictions
    rw [hms, hmc, hml]
  have hclamp := apply_industry_benchmarks_scores
    (trained_predictions st.models X data) (data.metal_type.getD "Aluminum")
    (by
      rw [htrained]
      exact map_clamp100_eq_self _ (by
        intro v hv
        rw [Option.some_inj] at hv
        exact hv ▸ run_model_bounds rs "sustainability_score" X data))
    (by
      rw [htrained]
      exact map_clamp100_eq_self _ (by
        intro v hv
        rw [Option.some_inj] at hv
        exact hv ▸ run_model_bounds rc "circular_score" X data))
    (by
      rw [htrained]
      exact map_clamp100_eq_self _ (by
        intro v hv
        rw [Option.some_inj] at hv
        exact hv ▸ run_model_bounds rl "linear_score" X data))
  have hmetrics := calculate_additional_metrics_preserves
    (apply_industry_benchmarks (trained_predictions st.models X data)
      (data.metal_type.getD "Aluminum")) data
  unfold predict
  rw [hX]
  simp only [hfb, Bool.false_eq_true, if_false]
  refine ⟨_, _, rfl, ?_, ?_, ?_⟩
  · intro hr
    rw [hmetrics.1, hclamp.1, htrained]
    simp [run_model, hr, fallback_single_prediction]
  · intro hr
    rw [hmetrics.2.1, hclamp.2.1, htrained]
    simp [run_model, hr, fallback_single_prediction]
  · intro hr
    rw [hmetrics.2.2.1, hclamp.2.2, htrained]
    simp [run_model, hr, fallback_single_prediction]

/-- Witness for C6 at concrete inputs: all three regressors raise on
every input, and each target receives its rescue constant. -/
theorem predict_regressor_failure_witness :
    ∃ p mi, predict trainedFailState "T" exampleRequest = .ok p mi ∧
      p.sustainability_score = some 65 ∧ p.circular_score = some 75 ∧
      p.linear_score = some 55 := by
  obtain ⟨p, mi, hok, h1, h2, h3⟩ := predict_regressor_failure trainedFailState
    "T" exampleRequest [0, 1, 1, 0, 0, 50, 80]
    (fun _ => none) (fun _ => none) (fun _ => none)
    (by with_unfolding_all decide) rfl rfl rfl rfl
  exact ⟨p, mi, hok, h1 rfl, h2 rfl, h3 rfl⟩

/-- C10: the categorical encoding maps region `India` and region `Asia`
to the same integer 2, so two valid requests identical except for
swapping those regions produce equal encoded feature vectors and equal
`predict` responses (in any engine state, at any timestamp). -/
theorem predict_india_asia_equal (st : PredictorState) (now : String)
    (req : Request)
    (hv : (validate_input_data { req with region := some "India" }).1 = true) :
    encode_region "India" = 2 ∧ encode_region "Asia" = 2 ∧
      preprocess_input st { req with region := some "India" } =
        preprocess_input st { req with region := some "Asia" } ∧
      predict st now { req with region := some "India" } =
        predict st now { req with region := some "Asia" } :=
  ⟨rfl, rfl, rfl, rfl⟩

/-- Witness for C10 at concrete inputs: the worked example request with
its region replaced. -/
theorem predict_india_asia_equal_witness :
    (validate_input_data { exampleRequest with region := some "India" }).1
        = true ∧
      predict fallback_mode_state "T" { exampleRequest with
        region := some "India" } =
        predict fallback_mode_state "T" { exampleRequest with
          region := some "Asia" } :=
  ⟨by with_unfolding_all decide,
    (predict_india_asia_equal fallback_mode_state "T" exampleRequest
      (by with_unfolding_all decide)).2.2.2⟩

end LCA
